import Mathlib

/-!
Verification of the shared-timer-driven loopback capture program
(src/example/LoopbackCaptureSharedTimerDriven/main.go): the WAV container
encoder WAVEFormat.Bytes, the format-override step, the duration gate, and
the poll/copy/sleep/release capture loop.

Modelling conventions:
* Go machine integers become Nat (unsigned) or Int (time.Duration is int64
  nanoseconds); `% 4294967296` appears explicitly wherever uint32 overflow
  can occur (DataSize accumulation, uint32 subtraction, uint32 truncation).
* The two Go float64 expressions that are truncated into a time.Duration
  (the current-duration computation on line 239 and the capturing-period
  computation on line 263) are modelled by exact rational arithmetic with a
  single final floor.  All integer inputs involved are exactly
  representable in float64 and the accumulated rounding error is far below
  one nanosecond, so at the integer thresholds the claims compare against,
  the truncated values agree with the exact rational floors.
* Bytes are Nat values (the source reads raw memory bytes, 0..255); the
  buffer region handed back by GetBuffer is modelled as a total function
  from offsets to bytes, because the Go code dereferences exactly
  availableFrameSize * blockAlign consecutive bytes starting at the
  returned pointer.
-/

/-- WAVEFormat (main.go lines 22-31).  Go widths: FormatTag, Channels,
BlockAlign, BitsPerSample are uint16; SamplesPerSec, AvgBytesPerSec,
DataSize are uint32; RawData is the accumulated raw PCM byte slice. -/
structure WAVEFormat where
  FormatTag : Nat
  Channels : Nat
  SamplesPerSec : Nat
  AvgBytesPerSec : Nat
  BlockAlign : Nat
  BitsPerSample : Nat
  DataSize : Nat
  RawData : List Nat
  deriving DecidableEq

/-- Little-endian serialisation of a uint16 (binary.Write LittleEndian). -/
def u16le (n : Nat) : List Nat :=
  [n % 256, n / 256 % 256]

/-- Little-endian serialisation of a uint32 (binary.Write LittleEndian).
Values at or above 2^32 are truncated exactly as Go uint32 arithmetic
truncates them, since every byte is reduced mod 256. -/
def u32le (n : Nat) : List Nat :=
  [n % 256, n / 256 % 256, n / 65536 % 256, n / 16777216 % 256]

/-- WAVEFormat.Bytes (main.go lines 33-51): the WAV container encoder.
The ASCII tags RIFF, WAVEfmt-space and data are written byte for byte (the
BigEndian mode on a byte slice is a no-op); v.DataSize + 36 is computed in
uint32 arithmetic, which u32le truncates modulo 2^32 exactly as Go does. -/
def WAVEFormat.Bytes (v : WAVEFormat) : List Nat :=
  [82, 73, 70, 70] ++ u32le (v.DataSize + 36)
    ++ [87, 65, 86, 69, 102, 109, 116, 32]
    ++ u32le 16 ++ u16le 1 ++ u16le v.Channels ++ u32le v.SamplesPerSec
    ++ u32le v.AvgBytesPerSec ++ u16le v.BlockAlign ++ u16le v.BitsPerSample
    ++ [100, 97, 116, 97] ++ u32le v.DataSize ++ v.RawData

/-- Little-endian uint16 decoder at byte offset i of a byte sequence
(the header layout of spec section 6; missing bytes read as 0). -/
def field16 (l : List Nat) (i : Nat) : Nat :=
  (l.drop i).getD 0 0 + 256 * (l.drop i).getD 1 0

/-- Little-endian uint32 decoder at byte offset i of a byte sequence
(the header layout of spec section 6; missing bytes read as 0). -/
def field32 (l : List Nat) (i : Nat) : Nat :=
  (l.drop i).getD 0 0 + 256 * (l.drop i).getD 1 0
    + 65536 * (l.drop i).getD 2 0 + 16777216 * (l.drop i).getD 3 0

/-- The negotiated mix-format object wca.WAVEFORMATEX, restricted to the
fields the program touches.  Go widths: wFormatTag, nChannels, nBlockAlign,
wBitsPerSample, cbSize are uint16; nSamplesPerSec, nAvgBytesPerSec are
uint32. -/
structure WAVEFORMATEX where
  wFormatTag : Nat
  nChannels : Nat
  nSamplesPerSec : Nat
  nAvgBytesPerSec : Nat
  nBlockAlign : Nat
  wBitsPerSample : Nat
  cbSize : Nat
  deriving DecidableEq

/-- The override step (main.go lines 161-167): sequential field
assignments, so nBlockAlign and nAvgBytesPerSec are recomputed from the
already-overridden wBitsPerSample, nChannels and nSamplesPerSec.  The
concrete products (16/8)*2 = 4 and 44100*4 = 176400 stay far below the
uint16 and uint32 bounds, so no reduction is needed. -/
def overrideFormat (w : WAVEFORMATEX) : WAVEFORMATEX :=
  let wFormatTag := 1
  let nChannels := 2
  let nSamplesPerSec := 44100
  let wBitsPerSample := 16
  let nBlockAlign := wBitsPerSample / 8 * nChannels
  let nAvgBytesPerSec := nSamplesPerSec * nBlockAlign
  { wFormatTag := wFormatTag
    nChannels := nChannels
    nSamplesPerSec := nSamplesPerSec
    nAvgBytesPerSec := nAvgBytesPerSec
    nBlockAlign := nBlockAlign
    wBitsPerSample := wBitsPerSample
    cbSize := 0 }

/-- Construction of the audio accumulator value (main.go lines 169-174):
audio starts as the zero value of WAVEFormat (so FormatTag stays 0 and the
accumulator starts empty) and copies the descriptor fields from the
overridden format object. -/
def mkAudio (w : WAVEFORMATEX) : WAVEFormat :=
  { FormatTag := 0
    Channels := w.nChannels
    SamplesPerSec := w.nSamplesPerSec
    AvgBytesPerSec := w.nAvgBytesPerSec
    BlockAlign := w.nBlockAlign
    BitsPerSample := w.wBitsPerSample
    DataSize := 0
    RawData := [] }

/-- The duration gate (main.go line 240): the loop stops when
duration != 0 && currentDuration > duration.  Both arguments are int64
nanosecond counts (time.Duration). -/
def shouldStop (requested current : Int) : Bool :=
  requested != 0 && decide (requested < current)

/-- The current capture duration in nanoseconds (main.go line 239).  The Go
source divides float64(DataSize) by float64(BitsPerSample/8) (an integer
division in uint16 first), then by float64(Channels), then by
float64(SamplesPerSec), multiplies by 1e9 and truncates to time.Duration;
as an exact rational that is DataSize * 1e9 over the product of the three
divisors, with one final floor. -/
def currentDurationNs (a : WAVEFormat) : Nat :=
  a.DataSize * 1000000000 / (a.BitsPerSample / 8 * a.Channels * a.SamplesPerSec)

/-- DurationFlag.Set (main.go lines 57-65): parses the seconds value and
converts time.Duration(sec * 1e9), a float-to-int64 conversion that
truncates toward zero; Int division by the denominator of the exact
rational does the same. -/
def durationFlagSet (sec : Rat) : Int :=
  (sec * 1000000000).num / ((sec * 1000000000).den : Int)

/-- Main.go lines 211-213: the program prints the message telling the user
to stop the capture with Ctrl-C, a promise of an unbounded capture,
exactly when the requested duration is at most zero. -/
def ctrlCHintShown (duration : Int) : Bool :=
  decide (duration ≤ 0)

/-- Go uint32 subtraction a - b for a < 2^32 (wraps modulo 2^32). -/
def sub32 (a b : Nat) : Nat :=
  (a + 4294967296 - b % 4294967296) % 4294967296

/-- One GetBuffer response: the available frame count, the buffer region
(as a total byte-at-offset function, since the Go code dereferences raw
memory), the subsequent GetCurrentPadding response (none models a failing
call), and whether the subsequent ReleaseBuffer call succeeds. -/
structure PollData where
  frames : Nat
  region : Nat → Nat
  padding : Option Nat
  releaseOk : Bool

/-- The behaviour of the environment for one loop iteration: either the SIGINT
channel has a pending signal (taken by the select before the default
branch), or the default branch runs and GetBuffer yields the given
response (none models a failing GetBuffer call). -/
inductive IterInput where
  | interrupt
  | poll (res : Option PollData)

/-- Externally visible actions of one loop iteration, in program order. -/
inductive Event where
  | append (bytes : List Nat)
  | queryPad (padding : Nat)
  | sleep (ns : Nat)
  | release (frames : Nat)
  deriving DecidableEq

/-- The per-run constants of the capture loop: the requested duration in
nanoseconds (time.Duration) and kept from the negotiated format object and
session setup, wfx.NBlockAlign, wfx.NSamplesPerSec and the allocated
buffer frame capacity (main.go lines 195-199, 251-266). -/
structure CaptureEnv where
  duration : Int
  wfxBlockAlign : Nat
  wfxSamplesPerSec : Nat
  bufferFrameSize : Nat
  deriving DecidableEq

/-- One iteration of the capture loop body (main.go lines 229-269), from a
state where isCapturing is true.  Returns none when a mid-capture call
fails (the function returns the error), otherwise the updated accumulator,
whether capturing continues, and the ordered list of visible actions.
The copy loop on lines 254-257 appends exactly
availableFrameSize * wfx.NBlockAlign consecutive region bytes, then line
258 adds uint32(lim) to the uint32 DataSize; line 263 recomputes the
capturing period from the freshly queried padding, line 264 sleeps for
half of it (time.Duration integer halving), and line 265 releases the
frames. -/
def stepIter (env : CaptureEnv) (audio : WAVEFormat) (inp : IterInput) :
    Option (WAVEFormat × Bool × List Event) :=
  match inp with
  | .interrupt => some (audio, false, [])
  | .poll res =>
    if shouldStop env.duration (currentDurationNs audio) then
      some (audio, false, [])
    else
      match res with
      | none => none
      | some pd =>
        if pd.frames = 0 then
          some (audio, true, [])
        else
          let lim := pd.frames * env.wfxBlockAlign
          let copied := (List.range lim).map pd.region
          let audio2 : WAVEFormat :=
            { audio with
                RawData := audio.RawData ++ copied
                DataSize := (audio.DataSize + lim % 4294967296) % 4294967296 }
          match pd.padding with
          | none => none
          | some padding =>
            let period := sub32 env.bufferFrameSize padding * 1000000000 / env.wfxSamplesPerSec
            if pd.releaseOk then
              some (audio2, true,
                [Event.append copied, Event.queryPad padding,
                  Event.sleep (period / 2), Event.release pd.frames])
            else none

/-- Outcome of running the capture loop against a finite list of
environment responses: failed models an error return, stopped models a
normal exit of the for loop (isCapturing became false), running means the
supplied responses ran out while the loop was still capturing. -/
inductive RunOutcome where
  | failed
  | stopped (audio : WAVEFormat)
  | running (audio : WAVEFormat)
  deriving DecidableEq

/-- The capture loop (main.go lines 229-269) driven by a finite list of
per-iteration environment responses. -/
def loopRun (env : CaptureEnv) (audio : WAVEFormat) : List IterInput → RunOutcome
  | [] => .running audio
  | inp :: rest =>
    match stepIter env audio inp with
    | none => .failed
    | some (a2, true, _) => loopRun env a2 rest
    | some (a2, false, _) => .stopped a2

/-- The write decision of run (main.go lines 110-115) for a non-empty
output file name: the WAV encoding of the captured audio is written if and
only if loopbackCaptureSharedTimerDriven returned without error; on any
error nothing is written.  The result is the byte content written, none
when no file is produced. -/
def runModel (env : CaptureEnv) (audio0 : WAVEFormat) (inputs : List IterInput) :
    Option (List Nat) :=
  match loopRun env audio0 inputs with
  | .stopped a => some a.Bytes
  | _ => none

/-- The accumulator bookkeeping relation that actually holds in the code:
the uint32 DataSize equals the accumulated byte count reduced mod 2^32. -/
def accInv (a : WAVEFormat) : Prop :=
  a.DataSize = a.RawData.length % 4294967296

/-- What holds of every observation point reached from a start state a0:
on an error the run aborts, otherwise the reached accumulator satisfies
accInv, its data extends the initial data (append-only, never compacted),
and as long as fewer than 2^32 bytes have been accumulated DataSize equals
the exact byte count. -/
def outcomeOK (a0 : WAVEFormat) : RunOutcome → Prop
  | .failed => True
  | .stopped a =>
      accInv a ∧ a0.RawData <+: a.RawData ∧
        (a.RawData.length < 4294967296 → a.DataSize = a.RawData.length)
  | .running a =>
      accInv a ∧ a0.RawData <+: a.RawData ∧
        (a.RawData.length < 4294967296 → a.DataSize = a.RawData.length)

/-- The uint16/uint32 ranges of the Go struct fields, plus room for the
RIFF size field DataSize + 36 not to wrap. -/
def fieldsInRange (wf : WAVEFormat) : Prop :=
  wf.Channels < 65536 ∧ wf.SamplesPerSec < 4294967296 ∧
    wf.AvgBytesPerSec < 4294967296 ∧ wf.BlockAlign < 65536 ∧
    wf.BitsPerSample < 65536 ∧ wf.DataSize + 36 < 4294967296

/-- The canonical PCM WAV layout of spec section 6, read back from the
encoder output with the offset decoders. -/
def wavLayoutOK (wf : WAVEFormat) : Prop :=
  wf.Bytes.length = 44 + wf.RawData.length ∧
  wf.Bytes.take 4 = [82, 73, 70, 70] ∧
  field32 wf.Bytes 4 = wf.DataSize + 36 ∧
  (wf.Bytes.drop 8).take 8 = [87, 65, 86, 69, 102, 109, 116, 32] ∧
  field32 wf.Bytes 16 = 16 ∧
  field16 wf.Bytes 20 = 1 ∧
  field16 wf.Bytes 22 = wf.Channels ∧
  field32 wf.Bytes 24 = wf.SamplesPerSec ∧
  field32 wf.Bytes 28 = wf.AvgBytesPerSec ∧
  field16 wf.Bytes 32 = wf.BlockAlign ∧
  field16 wf.Bytes 34 = wf.BitsPerSample ∧
  (wf.Bytes.drop 36).take 4 = [100, 97, 116, 97] ∧
  field32 wf.Bytes 40 = wf.DataSize ∧
  wf.Bytes.drop 44 = wf.RawData

/-- The descriptor the program always captures with: the zero negotiated
format object after the override step (channels 2, 44100 Hz, 16 bit,
blockAlign 4, avgBytesPerSec 176400), with an empty accumulator. -/
def fmt44 : WAVEFormat :=
  mkAudio (overrideFormat
    { wFormatTag := 0, nChannels := 0, nSamplesPerSec := 0, nAvgBytesPerSec := 0,
      nBlockAlign := 0, wBitsPerSample := 0, cbSize := 0 })

/-- The concrete scenario of the spec: the fixed descriptor with 8
accumulated sample bytes. -/
def fmt44data8 : WAVEFormat :=
  { fmt44 with DataSize := 8, RawData := List.replicate 8 0 }

/-- A run environment with an unbounded requested duration and the fixed
profile: wfx.NBlockAlign = 4, wfx.NSamplesPerSec = 44100, and a 200 ms
buffer of 8820 frames. -/
def env44 : CaptureEnv :=
  { duration := 0, wfxBlockAlign := 4, wfxSamplesPerSec := 44100, bufferFrameSize := 8820 }

/-- The same environment with a requested duration of -1.0 seconds. -/
def envNeg : CaptureEnv :=
  { env44 with duration := -1000000000 }

/-- A full-buffer poll response: 8820 frames available, zero bytes, zero
padding, successful release. -/
def goodPoll : IterInput :=
  .poll (some { frames := 8820, region := fun _ => 0, padding := some 0, releaseOk := true })

/-- A small poll response: one frame of bytes 7, padding 3, successful
release. -/
def pdOne : PollData :=
  { frames := 1, region := fun _ => 7, padding := some 3, releaseOk := true }

/-- A poll response with no available frames. -/
def pdZero : PollData :=
  { frames := 0, region := fun _ => 0, padding := some 0, releaseOk := true }


theorem field32_Bytes_4 (wf : WAVEFormat) :
    field32 wf.Bytes 4 = (wf.DataSize + 36) % 4294967296 := by
  simp only [field32, WAVEFormat.Bytes, u32le, u16le, List.cons_append, List.nil_append]
  norm_num [List.drop, List.getD]
  omega

theorem field32_Bytes_40 (wf : WAVEFormat) :
    field32 wf.Bytes 40 = wf.DataSize % 4294967296 := by
  simp only [field32, WAVEFormat.Bytes, u32le, u16le, List.cons_append, List.nil_append]
  norm_num [List.drop, List.getD]
  omega

theorem length_Bytes (wf : WAVEFormat) : wf.Bytes.length = 44 + wf.RawData.length := by
  simp only [WAVEFormat.Bytes, u32le, u16le, List.cons_append, List.nil_append,
    List.length_append, List.length_cons, List.length_nil]
  omega

theorem wavLayoutOK_of_fieldsInRange (wf : WAVEFormat) (hr : fieldsInRange wf) :
    wavLayoutOK wf := by
  obtain ⟨hch, hsps, habs, hba, hbps, hds⟩ := hr
  refine ⟨length_Bytes wf, ?_, ?_, ?_, ?_, ?_, ?_, ?_, ?_, ?_, ?_, ?_, ?_, ?_⟩
  case refine_2 => rw [field32_Bytes_4]; omega
  case refine_12 => rw [field32_Bytes_40]; omega
  all_goals
    simp only [field16, field32, WAVEFormat.Bytes, u32le, u16le, List.cons_append,
      List.nil_append]
    norm_num [List.drop, List.getD, List.take]
    try omega

/-- C1: for every format descriptor (fields in their Go integer ranges)
and accumulated byte sequence, WAVEFormat.Bytes produces exactly the
canonical PCM WAV layout: RIFF, dataSize+36 LE-uint32, WAVEfmt-space,
LE-uint32 16, LE-uint16 1, channels, samplesPerSec, avgBytesPerSec,
blockAlign, bitsPerSample, data, dataSize LE-uint32, then the raw PCM
bytes, with a 44-byte header; for the 44100 Hz 16-bit stereo descriptor
with 8 accumulated bytes the output is 52 bytes with bytes 40-43 decoding
to 8 and bytes 4-7 decoding to 44, and an empty capture yields exactly 44
bytes with dataSize 0 and no trailing bytes. -/
theorem c1_container_layout (wf : WAVEFormat) (hr : fieldsInRange wf) :
    wavLayoutOK wf ∧
    fmt44data8.Bytes.length = 52 ∧ field32 fmt44data8.Bytes 40 = 8 ∧
    field32 fmt44data8.Bytes 4 = 44 ∧
    fmt44.Bytes.length = 44 ∧ field32 fmt44.Bytes 40 = 0 ∧ fmt44.Bytes.drop 44 = [] :=
  ⟨wavLayoutOK_of_fieldsInRange wf hr, by decide, by decide, by decide,
    by decide, by decide, by decide⟩

/-- Witness for C1 at the concrete descriptor with 8 accumulated bytes. -/
theorem c1_container_layout_witness :
    fieldsInRange fmt44data8 ∧
    (wavLayoutOK fmt44data8 ∧
      fmt44data8.Bytes.length = 52 ∧ field32 fmt44data8.Bytes 40 = 8 ∧
      field32 fmt44data8.Bytes 4 = 44 ∧
      fmt44.Bytes.length = 44 ∧ field32 fmt44.Bytes 40 = 0 ∧ fmt44.Bytes.drop 44 = []) :=
  ⟨by unfold fieldsInRange; decide,
    c1_container_layout fmt44data8 (by unfold fieldsInRange; decide)⟩

/-- C2: the duration gate fires iff the requested duration is nonzero and
the current duration exceeds it; with a requested duration of 1.0 s and
the 44100 Hz 16-bit stereo descriptor it fires exactly when the
accumulated byte count exceeds 176400, and never before. -/
theorem c2_duration_gate :
    (∀ requested current : Int,
      shouldStop requested current = true ↔ requested ≠ 0 ∧ requested < current) ∧
    (∀ size : Nat,
      shouldStop 1000000000 (currentDurationNs { fmt44 with DataSize := size }) = true
        ↔ 176400 < size) := by
  constructor
  · intro r c
    simp only [shouldStop, Bool.and_eq_true, bne_iff_ne, ne_eq, decide_eq_true_eq]
  · intro size
    have h1 : fmt44.BitsPerSample = 16 := by decide
    have h2 : fmt44.Channels = 2 := by decide
    have h3 : fmt44.SamplesPerSec = 44100 := by decide
    have hc : currentDurationNs { fmt44 with DataSize := size }
        = size * 1000000000 / 176400 := by
      simp [currentDurationNs, h1, h2, h3]
    simp only [hc, shouldStop, Bool.and_eq_true, bne_iff_ne, ne_eq, decide_eq_true_eq]
    constructor
    · rintro ⟨-, h⟩
      omega
    · intro h
      exact ⟨by norm_num, by omega⟩

/-- C6: decoding the header of the encoder output recovers exactly the
channels, samplesPerSec, avgBytesPerSec, blockAlign and bitsPerSample of
the descriptor, and a dataSize equal to the length of the raw bytes,
whenever the DataSize field equals that length. -/
theorem c6_header_roundtrip (wf : WAVEFormat) (hr : fieldsInRange wf)
    (hsz : wf.DataSize = wf.RawData.length) :
    field16 wf.Bytes 22 = wf.Channels ∧ field32 wf.Bytes 24 = wf.SamplesPerSec ∧
    field32 wf.Bytes 28 = wf.AvgBytesPerSec ∧ field16 wf.Bytes 32 = wf.BlockAlign ∧
    field16 wf.Bytes 34 = wf.BitsPerSample ∧ field32 wf.Bytes 40 = wf.RawData.length := by
  obtain ⟨-, -, -, -, -, -, hch, hsps, habs, hba, hbps, -, hds, -⟩ :=
    wavLayoutOK_of_fieldsInRange wf hr
  exact ⟨hch, hsps, habs, hba, hbps, by rw [hds, hsz]⟩

/-- Witness for C6 at the concrete descriptor with 8 accumulated bytes. -/
theorem c6_header_roundtrip_witness :
    fieldsInRange fmt44data8 ∧ fmt44data8.DataSize = fmt44data8.RawData.length ∧
    (field16 fmt44data8.Bytes 22 = fmt44data8.Channels ∧
      field32 fmt44data8.Bytes 24 = fmt44data8.SamplesPerSec ∧
      field32 fmt44data8.Bytes 28 = fmt44data8.AvgBytesPerSec ∧
      field16 fmt44data8.Bytes 32 = fmt44data8.BlockAlign ∧
      field16 fmt44data8.Bytes 34 = fmt44data8.BitsPerSample ∧
      field32 fmt44data8.Bytes 40 = fmt44data8.RawData.length) :=
  ⟨by unfold fieldsInRange; decide, by decide,
    c6_header_roundtrip fmt44data8 (by unfold fieldsInRange; decide) (by decide)⟩

/-- C7: after the override step the format object carries the fixed target
profile (PCM tag 1, 2 channels, 44100 Hz, 16 bit) and satisfies
blockAlign = bitsPerSample/8 * channels and
avgBytesPerSec = samplesPerSec * blockAlign, both recomputed from the
overridden values (hence 4 and 176400 independently of the negotiated
object), and the descriptor built from it carries exactly those fields. -/
theorem c7_format_override (w : WAVEFORMATEX) :
    (overrideFormat w).wFormatTag = 1 ∧ (overrideFormat w).nChannels = 2 ∧
    (overrideFormat w).nSamplesPerSec = 44100 ∧ (overrideFormat w).wBitsPerSample = 16 ∧
    (overrideFormat w).nBlockAlign
      = (overrideFormat w).wBitsPerSample / 8 * (overrideFormat w).nChannels ∧
    (overrideFormat w).nAvgBytesPerSec
      = (overrideFormat w).nSamplesPerSec * (overrideFormat w).nBlockAlign ∧
    (overrideFormat w).nBlockAlign = 4 ∧ (overrideFormat w).nAvgBytesPerSec = 176400 ∧
    mkAudio (overrideFormat w) =
      { FormatTag := 0, Channels := 2, SamplesPerSec := 44100, AvgBytesPerSec := 176400,
        BlockAlign := 4, BitsPerSample := 16, DataSize := 0, RawData := [] } := by
  have h1 : (overrideFormat w).wFormatTag = 1 := by simp [overrideFormat]
  have h2 : (overrideFormat w).nChannels = 2 := by simp [overrideFormat]
  have h3 : (overrideFormat w).nSamplesPerSec = 44100 := by simp [overrideFormat]
  have h4 : (overrideFormat w).wBitsPerSample = 16 := by simp [overrideFormat]
  have h5 : (overrideFormat w).nBlockAlign = 4 := by simp [overrideFormat]
  have h6 : (overrideFormat w).nAvgBytesPerSec = 176400 := by simp [overrideFormat]
  have h7 : mkAudio (overrideFormat w) =
      { FormatTag := 0, Channels := 2, SamplesPerSec := 44100, AvgBytesPerSec := 176400,
        BlockAlign := 4, BitsPerSample := 16, DataSize := 0, RawData := [] } := by
    simp [overrideFormat, mkAudio]
  refine ⟨h1, h2, h3, h4, ?_, ?_, h5, h6, h7⟩
  · rw [h5, h4, h2]
  · rw [h6, h3, h5]

/-- C10: the output length of Bytes is governed solely by RawData (always
44 + length RawData), while the RIFF size field at bytes 4-7 and the data
size field at bytes 40-43 are computed solely from the DataSize field, so
whenever DataSize disagrees with the payload length the emitted header is
inconsistent with the payload. -/
theorem c10_header_solely_from_datasize (wf : WAVEFormat)
    (h1 : wf.DataSize < 4294967296) (h2 : wf.DataSize ≠ wf.RawData.length) :
    wf.Bytes.length = 44 + wf.RawData.length ∧
    field32 wf.Bytes 40 = wf.DataSize ∧
    field32 wf.Bytes 4 = (wf.DataSize + 36) % 4294967296 ∧
    field32 wf.Bytes 40 ≠ wf.Bytes.length - 44 := by
  have hlen := length_Bytes wf
  have h40 := field32_Bytes_40 wf
  have h4 := field32_Bytes_4 wf
  exact ⟨hlen, by omega, h4, by omega⟩

/-- Witness for C10: a descriptor whose DataSize field (5) disagrees with
its empty payload. -/
theorem c10_header_solely_from_datasize_witness :
    ({ fmt44 with DataSize := 5 } : WAVEFormat).DataSize < 4294967296 ∧
    ({ fmt44 with DataSize := 5 } : WAVEFormat).DataSize
      ≠ ({ fmt44 with DataSize := 5 } : WAVEFormat).RawData.length ∧
    (({ fmt44 with DataSize := 5 } : WAVEFormat).Bytes.length
        = 44 + ({ fmt44 with DataSize := 5 } : WAVEFormat).RawData.length ∧
      field32 ({ fmt44 with DataSize := 5 } : WAVEFormat).Bytes 40
        = ({ fmt44 with DataSize := 5 } : WAVEFormat).DataSize ∧
      field32 ({ fmt44 with DataSize := 5 } : WAVEFormat).Bytes 4
        = (({ fmt44 with DataSize := 5 } : WAVEFormat).DataSize + 36) % 4294967296 ∧
      field32 ({ fmt44 with DataSize := 5 } : WAVEFormat).Bytes 40
        ≠ ({ fmt44 with DataSize := 5 } : WAVEFormat).Bytes.length - 44) :=
  ⟨by decide, by decide,
    c10_header_solely_from_datasize { fmt44 with DataSize := 5 } (by decide) (by decide)⟩

/-- C3 (code bug): contrary to the claim that a zero or negative requested
duration means an unbounded capture stopped only by the external
interrupt, a negative duration makes the gate fire immediately: parsing
-1 seconds yields -10^9 ns, the program itself prints the Ctrl-C hint
(promising an unbounded capture, main.go line 211), yet the gate condition
duration != 0 && currentDuration > duration is already true at an empty
accumulator, so the very first default-branch iteration stops the capture
without touching the buffer.  Only a duration of exactly zero disables the
gate. -/
theorem c3_negative_duration_stops_immediately :
    durationFlagSet (-1) = -1000000000 ∧
    ctrlCHintShown (-1000000000) = true ∧
    shouldStop (-1000000000) (currentDurationNs fmt44) = true ∧
    stepIter envNeg fmt44 (.poll (some pdOne)) = some (fmt44, false, []) ∧
    (∀ current : Int, shouldStop 0 current = false) := by
  refine ⟨by norm_num [durationFlagSet], by decide, by decide, by decide, ?_⟩
  intro current
  simp [shouldStop]

/-- C4: in a loop iteration whose poll yields a nonzero frame count (and
the duration gate has not fired), the driver appends exactly
frames * blockAlign bytes from the buffer region at the accumulator tail,
increments DataSize by exactly that count (stated below the uint32 bound),
then queries the padding, sleeps for half of
(bufferFrameCapacity - padding) / samplesPerSec seconds, and only then
releases exactly the polled frames - in that order. -/
theorem c4_drain_iteration (env : CaptureEnv) (a : WAVEFormat) (pd : PollData) (p : Nat)
    (hgate : shouldStop env.duration (currentDurationNs a) = false)
    (hframes : pd.frames ≠ 0)
    (hpad : pd.padding = some p)
    (hrel : pd.releaseOk = true)
    (hple : p ≤ env.bufferFrameSize)
    (hbuf : env.bufferFrameSize < 4294967296)
    (hfit : a.DataSize + pd.frames * env.wfxBlockAlign < 4294967296) :
    stepIter env a (.poll (some pd)) =
      some ({ a with
          RawData := a.RawData ++ (List.range (pd.frames * env.wfxBlockAlign)).map pd.region
          DataSize := a.DataSize + pd.frames * env.wfxBlockAlign }, true,
        [Event.append ((List.range (pd.frames * env.wfxBlockAlign)).map pd.region),
          Event.queryPad p,
          Event.sleep ((env.bufferFrameSize - p) * 1000000000 / env.wfxSamplesPerSec / 2),
          Event.release pd.frames]) ∧
    ((List.range (pd.frames * env.wfxBlockAlign)).map pd.region).length
      = pd.frames * env.wfxBlockAlign := by
  have e1 : (a.DataSize + pd.frames * env.wfxBlockAlign % 4294967296) % 4294967296
      = a.DataSize + pd.frames * env.wfxBlockAlign := by omega
  have e2 : sub32 env.bufferFrameSize p = env.bufferFrameSize - p := by
    unfold sub32; omega
  constructor
  · simp [stepIter, hgate, hframes, hpad, hrel, e1, e2]
  · simp

/-- Witness for C4: one frame of 4 bytes drained from a fresh accumulator
with padding 3 in an 8820-frame buffer. -/
theorem c4_drain_iteration_witness :
    shouldStop env44.duration (currentDurationNs fmt44) = false ∧
    pdOne.frames ≠ 0 ∧ pdOne.padding = some 3 ∧ pdOne.releaseOk = true ∧
    3 ≤ env44.bufferFrameSize ∧ env44.bufferFrameSize < 4294967296 ∧
    fmt44.DataSize + pdOne.frames * env44.wfxBlockAlign < 4294967296 ∧
    (stepIter env44 fmt44 (.poll (some pdOne)) =
      some ({ fmt44 with
          RawData :=
            fmt44.RawData ++ (List.range (pdOne.frames * env44.wfxBlockAlign)).map pdOne.region
          DataSize := fmt44.DataSize + pdOne.frames * env44.wfxBlockAlign }, true,
        [Event.append ((List.range (pdOne.frames * env44.wfxBlockAlign)).map pdOne.region),
          Event.queryPad 3,
          Event.sleep ((env44.bufferFrameSize - 3) * 1000000000 / env44.wfxSamplesPerSec / 2),
          Event.release pdOne.frames]) ∧
      ((List.range (pdOne.frames * env44.wfxBlockAlign)).map pdOne.region).length
        = pdOne.frames * env44.wfxBlockAlign) :=
  ⟨by decide, by decide, rfl, rfl, by decide, by decide, by decide,
    c4_drain_iteration env44 fmt44 pdOne 3 (by decide) (by decide) rfl rfl
      (by decide) (by decide) (by decide)⟩

/-- C9: a loop iteration whose poll reports zero available frames (and
whose gate has not fired) leaves the accumulator unchanged, performs no
sleep, releases nothing, and continues capturing immediately. -/
theorem c9_zero_frames_skip (env : CaptureEnv) (a : WAVEFormat) (pd : PollData)
    (hgate : shouldStop env.duration (currentDurationNs a) = false)
    (hframes : pd.frames = 0) :
    stepIter env a (.poll (some pd)) = some (a, true, []) := by
  simp [stepIter, hgate, hframes]

/-- Witness for C9 at the fixed descriptor and a zero-frame poll. -/
theorem c9_zero_frames_skip_witness :
    shouldStop env44.duration (currentDurationNs fmt44) = false ∧
    pdZero.frames = 0 ∧
    stepIter env44 fmt44 (.poll (some pdZero)) = some (fmt44, true, []) :=
  ⟨by decide, by decide, c9_zero_frames_skip env44 fmt44 pdZero (by decide) (by decide)⟩

theorem loopRun_append (env : CaptureEnv) (xs ys : List IterInput) (a : WAVEFormat) :
    loopRun env a (xs ++ ys) =
      match loopRun env a xs with
      | .running a2 => loopRun env a2 ys
      | o => o := by
  induction xs generalizing a with
  | nil => simp [loopRun]
  | cons x xs ih =>
    simp only [List.cons_append, loopRun]
    cases h : stepIter env a x with
    | none => rfl
    | some t =>
      obtain ⟨a2, cont, evts⟩ := t
      cases cont with
      | true => exact ih a2
      | false => rfl

/-- C5: all-or-nothing output.  If the capture loop reaches any state (with
arbitrary accumulated audio) at which the next environment response makes
a mid-capture call fail (GetBuffer, GetCurrentPadding or ReleaseBuffer),
the run writes nothing at all - everything captured so far is lost; and in
general every run either writes nothing or writes exactly the complete WAV
encoding of the fully captured audio. -/
theorem c5_all_or_nothing (env : CaptureEnv) (a0 : WAVEFormat)
    (pre post : List IterInput) (inp : IterInput) (st : WAVEFormat)
    (hpre : loopRun env a0 pre = .running st)
    (herr : stepIter env st inp = none) :
    runModel env a0 (pre ++ inp :: post) = none ∧
    (∀ inputs, runModel env a0 inputs = none ∨
      ∃ a, loopRun env a0 inputs = .stopped a ∧ runModel env a0 inputs = some a.Bytes) := by
  constructor
  · unfold runModel
    rw [loopRun_append env pre (inp :: post) a0, hpre]
    simp [loopRun, herr]
  · intro inputs
    rcases h : loopRun env a0 inputs with _ | a | a
    · left
      simp [runModel, h]
    · right
      exact ⟨a, rfl, by simp [runModel, h]⟩
    · left
      simp [runModel, h]

/-- Witness for C5: a failing GetBuffer on the very first iteration of an
unbounded capture produces no output file. -/
theorem c5_all_or_nothing_witness :
    loopRun env44 fmt44 [] = .running fmt44 ∧
    stepIter env44 fmt44 (.poll none) = none ∧
    (runModel env44 fmt44 ([] ++ IterInput.poll none :: []) = none ∧
      (∀ inputs, runModel env44 fmt44 inputs = none ∨
        ∃ a, loopRun env44 fmt44 inputs = .stopped a ∧
          runModel env44 fmt44 inputs = some a.Bytes)) :=
  ⟨by decide, by decide,
    c5_all_or_nothing env44 fmt44 [] [] (.poll none) fmt44 (by decide) (by decide)⟩

theorem stepIter_inv (env : CaptureEnv) (a a2 : WAVEFormat) (inp : IterInput)
    (cont : Bool) (evts : List Event)
    (h : stepIter env a inp = some (a2, cont, evts)) (hinv : accInv a) :
    accInv a2 ∧ a.RawData <+: a2.RawData := by
  have hkeep : accInv a ∧ a.RawData <+: a.RawData := ⟨hinv, ⟨[], List.append_nil _⟩⟩
  cases inp with
  | interrupt =>
    simp only [stepIter, Option.some.injEq, Prod.mk.injEq] at h
    obtain ⟨ha, -, -⟩ := h
    subst ha
    exact hkeep
  | poll res =>
    cases hgate : shouldStop env.duration (currentDurationNs a) with
    | true =>
      simp only [stepIter, hgate, if_true, Option.some.injEq, Prod.mk.injEq] at h
      obtain ⟨ha, -, -⟩ := h
      subst ha
      exact hkeep
    | false =>
      cases res with
      | none => simp [stepIter, hgate] at h
      | some pd =>
        by_cases hf : pd.frames = 0
        · simp only [stepIter, hgate, hf, Bool.false_eq_true, if_false, if_true,
            Option.some.injEq, Prod.mk.injEq] at h
          obtain ⟨ha, -, -⟩ := h
          subst ha
          exact hkeep
        · cases hpd : pd.padding with
          | none => simp [stepIter, hgate, hf, hpd] at h
          | some p =>
            cases hrel : pd.releaseOk with
            | false => simp [stepIter, hgate, hf, hpd, hrel] at h
            | true =>
              simp only [stepIter, hgate, hf, hpd, hrel, Bool.false_eq_true, if_false,
                if_true, Option.some.injEq, Prod.mk.injEq] at h
              obtain ⟨ha, -, -⟩ := h
              subst ha
              constructor
              · unfold accInv at hinv ⊢
                simp only [List.length_append, List.length_map, List.length_range]
                omega
              · exact ⟨_, rfl⟩

theorem outcomeOK_mono (a0 a1 : WAVEFormat) (o : RunOutcome)
    (hp : a0.RawData <+: a1.RawData) (h : outcomeOK a1 o) : outcomeOK a0 o := by
  cases o with
  | failed => trivial
  | stopped a => exact ⟨h.1, hp.trans h.2.1, h.2.2⟩
  | running a => exact ⟨h.1, hp.trans h.2.1, h.2.2⟩

/-- C8 (amended): at every observation point of every run - the loop top
after any number of iterations, a normal stop, or the inputs running out -
the accumulator satisfies DataSize = length(RawData) mod 2^32, the data
only ever grows by appending at the tail (the previous contents stay a
prefix, never compacted), and as long as fewer than 2^32 bytes have been
accumulated, DataSize equals the byte count exactly.  The unamended claim
fails beyond 2^32 accumulated bytes because DataSize is a uint32 (see the
counterexample). -/
theorem c8_acc_invariant (env : CaptureEnv) (a0 : WAVEFormat) (inputs : List IterInput)
    (hinv : accInv a0) : outcomeOK a0 (loopRun env a0 inputs) := by
  induction inputs generalizing a0 with
  | nil =>
    refine ⟨hinv, ⟨[], List.append_nil _⟩, fun hlt => ?_⟩
    rw [hinv]
    exact Nat.mod_eq_of_lt hlt
  | cons x xs ih =>
    simp only [loopRun]
    cases h : stepIter env a0 x with
    | none => trivial
    | some t =>
      obtain ⟨a2, cont, evts⟩ := t
      obtain ⟨hi2, hpre⟩ := stepIter_inv env a0 a2 x cont evts h hinv
      cases cont with
      | true => exact outcomeOK_mono a0 a2 _ hpre (ih a2 hi2)
      | false =>
        refine ⟨hi2, hpre, fun hlt => ?_⟩
        rw [hi2]
        exact Nat.mod_eq_of_lt hlt

/-- Witness for C8 (amended) on a one-iteration interrupted run. -/
theorem c8_acc_invariant_witness :
    accInv fmt44 ∧ outcomeOK fmt44 (loopRun env44 fmt44 [IterInput.interrupt]) :=
  ⟨by unfold accInv; decide,
    c8_acc_invariant env44 fmt44 [IterInput.interrupt] (by unfold accInv; decide)⟩

theorem stepIter_goodPoll (st : WAVEFormat) :
    stepIter env44 st goodPoll =
      some ({ st with
          RawData := st.RawData ++ (List.range 35280).map (fun _ => 0)
          DataSize := (st.DataSize + 35280) % 4294967296 }, true,
        [Event.append ((List.range 35280).map (fun _ => 0)), Event.queryPad 0,
          Event.sleep 100000000, Event.release 8820]) := by
  simp only [stepIter, goodPoll, env44, shouldStop, bne_self_eq_false, Bool.false_and,
    Bool.false_eq_true, if_false]
  norm_num [sub32]

theorem loopRun_replicate_goodPoll (n : Nat) :
    ∀ st : WAVEFormat, st.DataSize < 4294967296 →
      ∃ a, loopRun env44 st (List.replicate n goodPoll) = .running a ∧
        a.DataSize = (st.DataSize + n * 35280) % 4294967296 ∧
        a.RawData.length = st.RawData.length + n * 35280 := by
  induction n with
  | zero =>
    intro st hst
    exact ⟨st, by simp [loopRun], by omega, by omega⟩
  | succ n ih =>
    intro st hst
    obtain ⟨a, ha, h1, h2⟩ :=
      ih { st with
            RawData := st.RawData ++ (List.range 35280).map (fun _ => 0)
            DataSize := (st.DataSize + 35280) % 4294967296 } (by dsimp only; omega)
    dsimp only at h1 h2
    refine ⟨a, ?_, ?_, ?_⟩
    · rw [List.replicate_succ]
      simp only [loopRun, stepIter_goodPoll st]
      exact ha
    · rw [h1]
      omega
    · rw [h2]
      simp only [List.length_append, List.length_map, List.length_range]
      omega

/-- C8 counterexample: the claim as stated (DataSize always equals the
exact accumulated byte count and never shrinks) is false on the code: a
run of 121742 full-buffer drain iterations (8820 frames of 4 bytes each)
accumulates 4295057760 bytes, past the uint32 range, so at the following
observation point DataSize has wrapped to 90464 and no longer equals the
length of the accumulated data. -/
theorem c8_acc_invariant_counterexample :
    ∃ a, loopRun env44 fmt44 (List.replicate 121742 goodPoll) = .running a ∧
      a.DataSize ≠ a.RawData.length := by
  obtain ⟨a, ha, h1, h2⟩ := loopRun_replicate_goodPoll 121742 fmt44 (by decide)
  have hd : fmt44.DataSize = 0 := by decide
  have hr : fmt44.RawData.length = 0 := by decide
  rw [hd] at h1
  rw [hr] at h2
  exact ⟨a, ha, by omega⟩
